import Mathlib

/-!
Shallow embedding of `mongodb_config.py` (MEDIMORPH): the five MongoEngine
document models (User, Medication, Reminder, MedicationLog,
PrescriptionUpload), the connection manager `init_mongodb`, and the
maintenance utilities `create_default_users` and `get_database_stats`.

Modelling conventions:
- `datetime` values are `Nat` ticks; `datetime.isoformat()` is an injective
  rendering function `isoformat : Nat → String`.
- `ObjectId` values are `Nat`; `str(objectid)` is `toString`.
- Python `float` fields (confidence scores, processing time) are `Rat`:
  the module only stores and passes them through, it never computes with them.
- Optional fields (`fields.XField()` with no value set) are `Option _`;
  the `x.isoformat() if x else None` idiom of every `to_dict` is `optIso`,
  the plain passthrough of an optional field is `optStr` / `optInt` / `optFloat`.
- A serialized dictionary is an association list `List (String × Value)`,
  where `Value` is the type of JSON-ready dictionary values.  `Value.dt`
  represents a raw (non-serialized) datetime object; the serializers are
  proved never to produce it.
- Exceptions of the underlying driver are `Except String _` oracle inputs;
  a Python `try/except` block that returns a value in both branches is a
  total Lean function on those oracles.
-/

namespace Medimorph

/-- Values of a serialized (`to_dict`) record: JSON-ready scalars, plus a
`dt` constructor standing for a raw internal datetime object, which a
correct serializer must never emit. -/
inductive Value where
  | str (s : String)
  | int (n : Int)
  | float (q : Rat)
  | bool (b : Bool)
  | strList (l : List String)
  | dt (t : Nat)
  | null
  deriving DecidableEq, Repr

/-- Model of `datetime.isoformat()`: an injective rendering of a datetime
tick into an ISO-8601 string. -/
def isoformat (t : Nat) : String :=
  "1970-01-01T00:00:00+" ++ toString t

/-- The `x.isoformat() if x else None` idiom used for every timestamp field
in the `to_dict` methods of mongodb_config.py. -/
def optIso : Option Nat → Value
  | some t => Value.str (isoformat t)
  | none => Value.null

/-- Passthrough of an optional string field into a dictionary value. -/
def optStr : Option String → Value
  | some s => Value.str s
  | none => Value.null

/-- Passthrough of an optional int field into a dictionary value. -/
def optInt : Option Int → Value
  | some n => Value.int n
  | none => Value.null

/-- Passthrough of an optional float field into a dictionary value. -/
def optFloat : Option Rat → Value
  | some q => Value.float q
  | none => Value.null

/-- The `str(self.reminder_id) if self.reminder_id else None` idiom
(line 258): an optional ObjectId rendered as a string when present. -/
def optOidStr : Option Nat → Value
  | some o => Value.str (toString o)
  | none => Value.null

/-- Module constant `MONGODB_URI` (mongodb_config.py line 13). -/
def MONGODB_URI : String := "mongodb://localhost:27017/"

/-- Module constant `DATABASE_NAME` (mongodb_config.py line 14). -/
def DATABASE_NAME : String := "medimorph_db"

/-- Model of `werkzeug.security.generate_password_hash`: the source stores
only the output of this one-way function, never the plaintext.  Modelled
as a deterministic injective encoding; the werkzeug contract is that
`check_password_hash (generate_password_hash p) q` holds exactly when
`q = p`. -/
def generate_password_hash (password : String) : String :=
  "pbkdf2:sha256:600000$" ++ password

/-- Model of `werkzeug.security.check_password_hash`: true exactly when the
candidate password hashes to the stored hash. -/
def check_password_hash (h password : String) : Bool :=
  h == generate_password_hash password

/-- The `User` document (mongodb_config.py lines 68-118). -/
structure User where
  id : Nat
  username : String
  email : String
  password_hash : String
  first_name : Option String
  last_name : Option String
  phone : Option String
  date_of_birth : Option Nat
  is_active : Bool
  created_at : Option Nat
  last_login : Option Nat
  deriving DecidableEq, Repr

/-- `User.set_password` (lines 93-95): stores only the hash. -/
def User.set_password (u : User) (password : String) : User :=
  { u with password_hash := generate_password_hash password }

/-- `User.check_password` (lines 97-99). -/
def User.check_password (u : User) (password : String) : Bool :=
  check_password_hash u.password_hash password

/-- `User.get_id` (lines 101-103). -/
def User.get_id (u : User) : String :=
  toString u.id

/-- `User.to_dict` (lines 105-118).  Note: `password_hash` is not emitted. -/
def User.to_dict (u : User) : List (String × Value) :=
  [("id", Value.str (toString u.id)),
   ("username", Value.str u.username),
   ("email", Value.str u.email),
   ("first_name", optStr u.first_name),
   ("last_name", optStr u.last_name),
   ("phone", optStr u.phone),
   ("date_of_birth", optIso u.date_of_birth),
   ("is_active", Value.bool u.is_active),
   ("created_at", optIso u.created_at),
   ("last_login", optIso u.last_login)]

/-- The `Medication` document (mongodb_config.py lines 120-175). -/
structure Medication where
  id : Nat
  user_id : Nat
  user_username : String
  name : String
  dosage : String
  frequency : String
  instructions : Option String
  duration : Option String
  start_date : Option Nat
  end_date : Option Nat
  is_active : Bool
  created_at : Option Nat
  updated_at : Option Nat
  source : String
  confidence_score : Rat
  deriving DecidableEq, Repr

/-- `Medication.save` (lines 153-156): the overridden save hook, which
unconditionally sets `updated_at` to the current time before persisting.
The current clock reading `datetime.utcnow()` is the explicit `now`
argument. -/
def Medication.save (m : Medication) (now : Nat) : Medication :=
  { m with updated_at := some now }

/-- `Medication.to_dict` (lines 158-175).  Note: the stored field
`user_username` is not emitted. -/
def Medication.to_dict (m : Medication) : List (String × Value) :=
  [("id", Value.str (toString m.id)),
   ("user_id", Value.str (toString m.user_id)),
   ("name", Value.str m.name),
   ("dosage", Value.str m.dosage),
   ("frequency", Value.str m.frequency),
   ("instructions", optStr m.instructions),
   ("duration", optStr m.duration),
   ("start_date", optIso m.start_date),
   ("end_date", optIso m.end_date),
   ("is_active", Value.bool m.is_active),
   ("created_at", optIso m.created_at),
   ("updated_at", optIso m.updated_at),
   ("source", Value.str m.source),
   ("confidence_score", Value.float m.confidence_score)]

/-- The `Reminder` document (mongodb_config.py lines 177-221). -/
structure Reminder where
  id : Nat
  medication_id : Nat
  user_id : Nat
  time : String
  days_of_week : List String
  is_active : Bool
  last_sent : Option Nat
  next_due : Option Nat
  created_at : Option Nat
  updated_at : Option Nat
  deriving DecidableEq, Repr

/-- `Reminder.save` (lines 203-206): same unconditional `updated_at`
refresh as `Medication.save`. -/
def Reminder.save (r : Reminder) (now : Nat) : Reminder :=
  { r with updated_at := some now }

/-- `Reminder.to_dict` (lines 208-221). -/
def Reminder.to_dict (r : Reminder) : List (String × Value) :=
  [("id", Value.str (toString r.id)),
   ("medication_id", Value.str (toString r.medication_id)),
   ("user_id", Value.str (toString r.user_id)),
   ("time", Value.str r.time),
   ("days_of_week", Value.strList r.days_of_week),
   ("is_active", Value.bool r.is_active),
   ("last_sent", optIso r.last_sent),
   ("next_due", optIso r.next_due),
   ("created_at", optIso r.created_at),
   ("updated_at", optIso r.updated_at)]

/-- The `MedicationLog` document (mongodb_config.py lines 223-260). -/
structure MedicationLog where
  id : Nat
  user_id : Nat
  medication_id : Nat
  taken_at : Option Nat
  dosage_taken : Option String
  notes : Option String
  status : String
  reminder_id : Option Nat
  created_at : Option Nat
  deriving DecidableEq, Repr

/-- `MedicationLog.to_dict` (lines 248-260). -/
def MedicationLog.to_dict (l : MedicationLog) : List (String × Value) :=
  [("id", Value.str (toString l.id)),
   ("user_id", Value.str (toString l.user_id)),
   ("medication_id", Value.str (toString l.medication_id)),
   ("taken_at", optIso l.taken_at),
   ("dosage_taken", optStr l.dosage_taken),
   ("notes", optStr l.notes),
   ("status", Value.str l.status),
   ("reminder_id", optOidStr l.reminder_id),
   ("created_at", optIso l.created_at)]

/-- The `PrescriptionUpload` document (mongodb_config.py lines 262-316). -/
structure PrescriptionUpload where
  id : Nat
  user_id : Nat
  filename : String
  original_filename : String
  file_path : String
  file_size : Option Int
  mime_type : Option String
  extracted_text : Option String
  ocr_confidence : Option Rat
  processing_time : Option Rat
  medications_found : Int
  medications_added : Int
  processing_status : String
  error_message : Option String
  uploaded_at : Option Nat
  processed_at : Option Nat
  deriving DecidableEq, Repr

/-- `PrescriptionUpload.to_dict` (lines 298-316).  Note: the stored field
`file_path` is not emitted. -/
def PrescriptionUpload.to_dict (p : PrescriptionUpload) : List (String × Value) :=
  [("id", Value.str (toString p.id)),
   ("user_id", Value.str (toString p.user_id)),
   ("filename", Value.str p.filename),
   ("original_filename", Value.str p.original_filename),
   ("file_size", optInt p.file_size),
   ("mime_type", optStr p.mime_type),
   ("extracted_text", optStr p.extracted_text),
   ("ocr_confidence", optFloat p.ocr_confidence),
   ("processing_time", optFloat p.processing_time),
   ("medications_found", Value.int p.medications_found),
   ("medications_added", Value.int p.medications_added),
   ("processing_status", Value.str p.processing_status),
   ("error_message", optStr p.error_message),
   ("uploaded_at", optIso p.uploaded_at),
   ("processed_at", optIso p.processed_at)]

/-- A validation failure raised at persist time, identifying the offending
field (model of the mongoengine ValidationError). -/
structure ValidationError where
  field : String
  message : String
  deriving DecidableEq, Repr

/-- The `choices` constraint of a mongoengine `StringField`: persisting a
value outside the declared choices raises a ValidationError naming the
field.  Modelled from the declarative `choices=[...]` arguments at
mongodb_config.py lines 236 and 285 together with the documented mongoengine
validation semantics. -/
def validate_choices (fieldName : String) (choices : List String)
    (value : String) : Except ValidationError Unit :=
  if value ∈ choices then Except.ok ()
  else Except.error ⟨fieldName, "Value must be one of " ++ toString choices⟩

/-- The declared choices of `MedicationLog.status` (line 236). -/
def medication_log_status_choices : List String :=
  ["taken", "missed", "delayed"]

/-- The declared choices of `PrescriptionUpload.processing_status`
(line 285). -/
def prescription_upload_status_choices : List String :=
  ["pending", "processing", "completed", "failed"]

/-- Persist-time validation of `MedicationLog.status` against its declared
choices. -/
def MedicationLog.validate (l : MedicationLog) : Except ValidationError Unit :=
  validate_choices "status" medication_log_status_choices l.status

/-- Persist-time validation of `PrescriptionUpload.processing_status`
against its declared choices. -/
def PrescriptionUpload.validate (p : PrescriptionUpload) :
    Except ValidationError Unit :=
  validate_choices "processing_status" prescription_upload_status_choices
    p.processing_status

/-- One entry of the fixed seed list of `create_default_users`
(mongodb_config.py lines 323-338). -/
structure SeedUser where
  username : String
  email : String
  password : String
  first_name : String
  last_name : String
  deriving DecidableEq, Repr

/-- First seed entry (lines 324-330). -/
def testuserSeed : SeedUser :=
  { username := "testuser", email := "testuser@example.com",
    password := "testpass123", first_name := "Test", last_name := "User" }

/-- Second seed entry (lines 331-337). -/
def karthikSeed : SeedUser :=
  { username := "karthikrai390@gmail.com", email := "karthikrai390@gmail.com",
    password := "123456", first_name := "Karthik", last_name := "Rai" }

/-- The fixed `default_users` seed list (lines 323-338). -/
def default_users : List SeedUser :=
  [testuserSeed, karthikSeed]

/-- The User record built for a missing seed entry (lines 345-352):
constructed with `is_active=True`, then `set_password` stores the hash.
`created_at` takes the `datetime.utcnow` default, the explicit `now`. -/
def seedToUser (now : Nat) (s : SeedUser) : User :=
  User.set_password
    { id := 0, username := s.username, email := s.email, password_hash := "",
      first_name := some s.first_name, last_name := some s.last_name,
      phone := none, date_of_birth := none, is_active := true,
      created_at := some now, last_login := none }
    s.password

/-- The existence check `User.objects(username=...).first()` (line 343),
as a boolean on the users collection. -/
def hasUsername (db : List User) (name : String) : Bool :=
  db.any (fun u => u.username == name)

/-- Existence of an email in the users collection: the unique index on
`email` declared at line 73 makes `Document.save()` reject an insert whose
email is already held by another document. -/
def hasEmail (db : List User) (em : String) : Bool :=
  db.any (fun u => u.email == em)

/-- Model of `user.save()` for a fresh User document (line 353): the
unique indexes on `username` and `email` (lines 72-73) make the insert
raise NotUniqueError when another document already holds the same
username or email; otherwise the document is appended to the collection. -/
def User.saveNew (db : List User) (u : User) : Except String (List User) :=
  if hasUsername db u.username then Except.error "NotUniqueError: username"
  else if hasEmail db u.email then Except.error "NotUniqueError: email"
  else Except.ok (db ++ [u])

/-- The for-loop of `create_default_users` (lines 341-355), run inside the
try block: each seed entry is skipped when its username exists, otherwise
built and saved; the first save exception aborts the loop and reaches the
except branch (lines 362-364), which returns False.  Users saved by
earlier iterations remain in the collection (no rollback).  Returns the
collection, `created_count`, and the boolean outcome. -/
def createLoop (now : Nat) :
    List SeedUser → List User → Nat → List User × Nat × Bool
  | [], db, count => (db, count, true)
  | s :: rest, db, count =>
    if hasUsername db s.username then createLoop now rest db count
    else
      match User.saveNew db (seedToUser now s) with
      | Except.ok db2 => createLoop now rest db2 (count + 1)
      | Except.error _ => (db, count, false)

/-- `create_default_users` (lines 320-364): runs the seed loop over the
fixed seed list, starting from the given collection with a zero count. -/
def create_default_users (now : Nat) (db : List User) :
    List User × Nat × Bool :=
  createLoop now default_users db 0

/-- Number of seed usernames already present in the collection. -/
def seeds_present (db : List User) : Nat :=
  (default_users.filter (fun s => hasUsername db s.username)).length

/-- The arguments of the `connect(...)` call inside `init_mongodb`
(lines 23-31). -/
structure ConnectArgs where
  db : String
  host : String
  serverSelectionTimeoutMS : Nat
  connectTimeoutMS : Nat
  socketTimeoutMS : Nat
  maxPoolSize : Nat
  retryWrites : Bool
  deriving DecidableEq, Repr

/-- The literal arguments `init_mongodb` passes to `connect` (lines 23-31):
module constants plus hardcoded tunables. -/
def fixedConnectArgs : ConnectArgs :=
  { db := DATABASE_NAME, host := MONGODB_URI,
    serverSelectionTimeoutMS := 5000, connectTimeoutMS := 10000,
    socketTimeoutMS := 20000, maxPoolSize := 50, retryWrites := true }

/-- Observable driver-level actions of `init_mongodb`, in order. -/
inductive MongoEvent where
  | disconnect
  | connectAttempt (args : ConnectArgs)
  deriving DecidableEq, Repr

/-- Oracle for the outcome of the `connect` call: the driver either
establishes the connection or raises, with a diagnostic message. -/
inductive ConnectOutcome where
  | success
  | failure (msg : String)
  deriving DecidableEq, Repr

/-- The result of `init_mongodb`: final connection state, the returned
boolean, the printed log lines, and the ordered driver actions. -/
structure InitResult where
  connected : Option ConnectArgs
  ok : Bool
  log : List String
  events : List MongoEvent
  deriving DecidableEq, Repr

/-- `init_mongodb` (lines 16-38): disconnects any existing connection,
then attempts `connect` with the fixed arguments; on success returns True,
on any exception prints a diagnostic and returns False.  The unused Python
parameter `app=None` is the `_app` argument; the try/except over both
driver calls makes the function total in the outcome oracle. -/
def init_mongodb (_app : Option String) (_prior : Option ConnectArgs)
    (outcome : ConnectOutcome) : InitResult :=
  match outcome with
  | ConnectOutcome.success =>
      { connected := some fixedConnectArgs, ok := true,
        log := ["✅ Connected to MongoDB: " ++ MONGODB_URI ++ DATABASE_NAME],
        events := [MongoEvent.disconnect,
                   MongoEvent.connectAttempt fixedConnectArgs] }
  | ConnectOutcome.failure e =>
      { connected := none, ok := false,
        log := ["❌ MongoDB connection failed: " ++ e],
        events := [MongoEvent.disconnect,
                   MongoEvent.connectAttempt fixedConnectArgs] }

/-- The keys of the stats mapping, in the order built at lines 369-375. -/
def statsKeys : List String :=
  ["users", "medications", "reminders", "medication_logs",
   "prescription_uploads"]

/-- `get_database_stats` (lines 366-379): builds the five counts inside one
try block; each `X.objects.count()` is an oracle that either yields a count
or raises.  Any raise reaches the except branch, which returns None, so the
result is either the complete mapping or None. -/
def get_database_stats
    (users medications reminders medication_logs prescription_uploads :
      Except String Nat) : Option (List (String × Nat)) :=
  match (do
      let u ← users
      let m ← medications
      let r ← reminders
      let l ← medication_logs
      let p ← prescription_uploads
      pure [("users", u), ("medications", m), ("reminders", r),
            ("medication_logs", l), ("prescription_uploads", p)] :
      Except String (List (String × Nat))) with
  | Except.ok s => some s
  | Except.error _ => none

/-- A serialized value that is an ISO-8601 timestamp string or null. -/
def isIsoOrNull : Value → Prop
  | Value.str s => ∃ t, s = isoformat t
  | Value.null => True
  | _ => False

/-- A serialized value that is not a raw internal datetime object. -/
def notRawDt (v : Value) : Prop :=
  ∀ t, v ≠ Value.dt t

/-- Concrete User record used to instantiate theorems on concrete input. -/
def u0 : User :=
  { id := 1, username := "alice", email := "alice@x.com",
    password_hash := "", first_name := some "Alice", last_name := none,
    phone := none, date_of_birth := none, is_active := true,
    created_at := some 10, last_login := none }

/-- Concrete Medication record used to instantiate theorems. -/
def med0 : Medication :=
  { id := 2, user_id := 1, user_username := "alice", name := "Aspirin",
    dosage := "100mg", frequency := "daily", instructions := none,
    duration := none, start_date := some 20, end_date := none,
    is_active := true, created_at := some 20, updated_at := some 25,
    source := "manual", confidence_score := 1 }

/-- Concrete Reminder record used to instantiate theorems. -/
def rem0 : Reminder :=
  { id := 3, medication_id := 2, user_id := 1, time := "08:00",
    days_of_week := ["monday", "tuesday", "wednesday", "thursday",
                     "friday", "saturday", "sunday"],
    is_active := true, last_sent := none, next_due := some 30,
    created_at := some 20, updated_at := some 25 }

/-- Concrete MedicationLog with a valid status. -/
def log0 : MedicationLog :=
  { id := 4, user_id := 1, medication_id := 2, taken_at := some 40,
    dosage_taken := some "100mg", notes := none, status := "taken",
    reminder_id := some 3, created_at := some 40 }

/-- Concrete MedicationLog with a status outside the declared choices. -/
def badLog : MedicationLog :=
  { id := 5, user_id := 1, medication_id := 2, taken_at := some 41,
    dosage_taken := none, notes := none, status := "snoozed",
    reminder_id := none, created_at := some 41 }

/-- Concrete PrescriptionUpload with a valid processing status. -/
def up0 : PrescriptionUpload :=
  { id := 6, user_id := 1, filename := "rx_1.png",
    original_filename := "prescription.png", file_path := "uploads/rx_1.png",
    file_size := some 2048, mime_type := some "image/png",
    extracted_text := some "Aspirin 100mg daily", ocr_confidence := some (9/10),
    processing_time := some (3/2), medications_found := 1,
    medications_added := 1, processing_status := "completed",
    error_message := none, uploaded_at := some 50, processed_at := some 55 }

/-- Concrete PrescriptionUpload with a processing status outside the
declared choices. -/
def badUp : PrescriptionUpload :=
  { id := 7, user_id := 1, filename := "rx_2.png",
    original_filename := "p2.png", file_path := "uploads/rx_2.png",
    file_size := none, mime_type := none, extracted_text := none,
    ocr_confidence := none, processing_time := none, medications_found := 0,
    medications_added := 0, processing_status := "queued",
    error_message := none, uploaded_at := some 60, processed_at := none }

/-- Concrete User holding the first seed email under a different username:
the username existence check passes it over, but the unique email index
makes the seed insert raise. -/
def bob0 : User :=
  { id := 9, username := "bob", email := "testuser@example.com",
    password_hash := "h", first_name := none, last_name := none,
    phone := none, date_of_birth := none, is_active := true,
    created_at := some 1, last_login := none }

end Medimorph

namespace Medimorph

theorem generate_password_hash_inj {p q : String}
    (h : generate_password_hash p = generate_password_hash q) : p = q := by
  unfold generate_password_hash at h
  have hd := congrArg String.data h
  simp only [String.data_append] at hd
  exact String.ext (List.append_cancel_left hd)

/-- C1: for every User and plaintext `p`, `set_password p` followed by
`check_password p` returns true, and `check_password q` returns false for
any `q ≠ p`. -/
theorem set_check_password_roundtrip (u : User) (p q : String) (hq : q ≠ p) :
    User.check_password (User.set_password u p) p = true ∧
    User.check_password (User.set_password u p) q = false := by
  constructor
  · simp [User.check_password, User.set_password, check_password_hash]
  · simp only [User.check_password, User.set_password, check_password_hash]
    rw [beq_eq_false_iff_ne]
    intro hcontra
    exact hq (generate_password_hash_inj hcontra.symm)

theorem set_check_password_roundtrip_witness :
    User.check_password (User.set_password u0 "secret1") "secret1" = true ∧
    User.check_password (User.set_password u0 "secret1") "wrong" = false :=
  set_check_password_roundtrip u0 "secret1" "wrong" (by decide)

end Medimorph

namespace Medimorph

/-- C3: for every Medication and Reminder record, every save call
unconditionally recomputes `updated_at` (setting it to the current clock),
so after any save `updated_at` is greater than or equal to its previous
value whenever the clock has not run backwards past it. -/
theorem save_refreshes_updated_at (m : Medication) (r : Reminder) (now : Nat)
    (hm : ∀ t ∈ m.updated_at, t ≤ now) (hr : ∀ t ∈ r.updated_at, t ≤ now) :
    ((Medication.save m now).updated_at = some now ∧
     (Reminder.save r now).updated_at = some now) ∧
    (∀ t ∈ m.updated_at, ∀ s ∈ (Medication.save m now).updated_at, t ≤ s) ∧
    (∀ t ∈ r.updated_at, ∀ s ∈ (Reminder.save r now).updated_at, t ≤ s) := by
  refine ⟨⟨rfl, rfl⟩, ?_, ?_⟩
  · intro t ht s hs
    simp only [Medication.save, Option.mem_def, Option.some.injEq] at hs
    exact hs ▸ hm t ht
  · intro t ht s hs
    simp only [Reminder.save, Option.mem_def, Option.some.injEq] at hs
    exact hs ▸ hr t ht

theorem save_refreshes_updated_at_witness :
    ((Medication.save med0 100).updated_at = some 100 ∧
     (Reminder.save rem0 100).updated_at = some 100) ∧
    (∀ t ∈ med0.updated_at, ∀ s ∈ (Medication.save med0 100).updated_at, t ≤ s) ∧
    (∀ t ∈ rem0.updated_at, ∀ s ∈ (Reminder.save rem0 100).updated_at, t ≤ s) :=
  save_refreshes_updated_at med0 rem0 100
    (by intro t ht; simp only [med0, Option.mem_def, Option.some.injEq] at ht; omega)
    (by intro t ht; simp only [rem0, Option.mem_def, Option.some.injEq] at ht; omega)

/-- C4: persisting a MedicationLog with a status outside
{taken, missed, delayed} fails with a validation error identifying the
`status` field, and persisting a PrescriptionUpload with a
processing_status outside {pending, processing, completed, failed} fails
with a validation error identifying `processing_status`; any value inside
the respective set is accepted. -/
theorem status_choices_validation (l : MedicationLog) (p : PrescriptionUpload) :
    (l.status ∈ medication_log_status_choices →
      MedicationLog.validate l = Except.ok ()) ∧
    (l.status ∉ medication_log_status_choices →
      ∃ err, MedicationLog.validate l = Except.error err ∧
        err.field = "status") ∧
    (p.processing_status ∈ prescription_upload_status_choices →
      PrescriptionUpload.validate p = Except.ok ()) ∧
    (p.processing_status ∉ prescription_upload_status_choices →
      ∃ err, PrescriptionUpload.validate p = Except.error err ∧
        err.field = "processing_status") := by
  refine ⟨?_, ?_, ?_, ?_⟩
  · intro h
    simp [MedicationLog.validate, validate_choices, h]
  · intro h
    refine ⟨⟨"status", "Value must be one of " ++
      toString medication_log_status_choices⟩, ?_, rfl⟩
    simp [MedicationLog.validate, validate_choices, h]
  · intro h
    simp [PrescriptionUpload.validate, validate_choices, h]
  · intro h
    refine ⟨⟨"processing_status", "Value must be one of " ++
      toString prescription_upload_status_choices⟩, ?_, rfl⟩
    simp [PrescriptionUpload.validate, validate_choices, h]

theorem status_choices_validation_witness :
    (MedicationLog.validate log0 = Except.ok ()) ∧
    (∃ err, MedicationLog.validate badLog = Except.error err ∧
      err.field = "status") ∧
    (PrescriptionUpload.validate up0 = Except.ok ()) ∧
    (∃ err, PrescriptionUpload.validate badUp = Except.error err ∧
      err.field = "processing_status") :=
  ⟨(status_choices_validation log0 up0).1 (by decide),
   (status_choices_validation badLog badUp).2.1 (by decide),
   (status_choices_validation log0 up0).2.2.1 (by decide),
   (status_choices_validation badLog badUp).2.2.2 (by decide)⟩


/-- C6: `init_mongodb` first unconditionally tears down any prior
connection, then attempts a new one, and returns a boolean outcome; on
failure it logs a diagnostic and returns False without propagating the
exception (the result is independent of the prior connection, the
disconnect event precedes the connect attempt, and the failure branch
yields ok = false with a nonempty log). -/
theorem init_mongodb_contract (app : Option String)
    (prior prior2 : Option ConnectArgs) (o : ConnectOutcome) :
    (init_mongodb app prior o = init_mongodb app prior2 o) ∧
    ((init_mongodb app prior o).events =
      [MongoEvent.disconnect, MongoEvent.connectAttempt fixedConnectArgs]) ∧
    ((init_mongodb app prior o).ok = true ↔ o = ConnectOutcome.success) ∧
    (∀ e, o = ConnectOutcome.failure e →
      (init_mongodb app prior o).ok = false ∧
      (init_mongodb app prior o).log = ["❌ MongoDB connection failed: " ++ e] ∧
      (init_mongodb app prior o).connected = none) := by
  cases o with
  | success =>
      refine ⟨rfl, rfl, by simp [init_mongodb], ?_⟩
      intro e he
      exact absurd he (by simp)
  | failure msg =>
      refine ⟨rfl, rfl, by simp [init_mongodb], ?_⟩
      intro e he
      cases he
      exact ⟨rfl, rfl, rfl⟩

theorem init_mongodb_contract_witness :
    (init_mongodb none (some fixedConnectArgs)
        (ConnectOutcome.failure "connection refused")).ok = false ∧
    (init_mongodb none (some fixedConnectArgs)
        (ConnectOutcome.failure "connection refused")).log =
      ["❌ MongoDB connection failed: " ++ "connection refused"] ∧
    (init_mongodb none (some fixedConnectArgs)
        (ConnectOutcome.failure "connection refused")).connected = none :=
  (init_mongodb_contract none (some fixedConnectArgs) none
    (ConnectOutcome.failure "connection refused")).2.2.2
    "connection refused" rfl

/-- C8 counterexample: `init_mongodb` does not accept a caller-supplied
target address, database name, or tunables.  Passing a different address
through the only caller-visible parameter changes nothing: the connect
attempt still uses the fixed host `mongodb://localhost:27017/`, not the
supplied `mongodb://otherhost:9999/`. -/
theorem init_mongodb_ignores_caller_config :
    (init_mongodb (some "mongodb://otherhost:9999/") none
        ConnectOutcome.success =
      init_mongodb none none ConnectOutcome.success) ∧
    ((init_mongodb (some "mongodb://otherhost:9999/") none
        ConnectOutcome.success).events =
      [MongoEvent.disconnect, MongoEvent.connectAttempt fixedConnectArgs]) ∧
    (fixedConnectArgs.host = "mongodb://localhost:27017/") ∧
    (fixedConnectArgs.host ≠ "mongodb://otherhost:9999/") :=
  ⟨rfl, rfl, rfl, by decide⟩

/-- C8 amended: `init_mongodb` ignores its caller argument and always opens
the connection with the module constants MONGODB_URI and DATABASE_NAME and
the hardcoded tunables serverSelectionTimeoutMS=5000, connectTimeoutMS=10000,
socketTimeoutMS=20000, maxPoolSize=50, retryWrites=true. -/
theorem init_mongodb_uses_fixed_config (app : Option String)
    (prior : Option ConnectArgs) (o : ConnectOutcome) :
    ((init_mongodb app prior o).events =
      [MongoEvent.disconnect, MongoEvent.connectAttempt fixedConnectArgs]) ∧
    (fixedConnectArgs =
      { db := "medimorph_db", host := "mongodb://localhost:27017/",
        serverSelectionTimeoutMS := 5000, connectTimeoutMS := 10000,
        socketTimeoutMS := 20000, maxPoolSize := 50, retryWrites := true }) := by
  cases o <;> exact ⟨rfl, rfl⟩

/-- C7: `get_database_stats` returns either a mapping with a count for all
five entity types (users, medications, reminders, medication_logs,
prescription_uploads) or None; it never returns a partial subset, and when
every count succeeds it returns the complete mapping. -/
theorem get_database_stats_all_or_nothing
    (us ms rs ls ps : Except String Nat) :
    (get_database_stats us ms rs ls ps = none ∨
      ∃ a b c d e, us = Except.ok a ∧ ms = Except.ok b ∧ rs = Except.ok c ∧
        ls = Except.ok d ∧ ps = Except.ok e ∧
        get_database_stats us ms rs ls ps =
          some [("users", a), ("medications", b), ("reminders", c),
                ("medication_logs", d), ("prescription_uploads", e)]) ∧
    (∀ l, get_database_stats us ms rs ls ps = some l →
      l.map Prod.fst = statsKeys) ∧
    (∀ a b c d e : Nat,
      get_database_stats (Except.ok a) (Except.ok b) (Except.ok c)
          (Except.ok d) (Except.ok e) =
        some [("users", a), ("medications", b), ("reminders", c),
              ("medication_logs", d), ("prescription_uploads", e)]) := by
  refine ⟨?_, ?_, ?_⟩
  · cases us with
    | error eu => exact Or.inl rfl
    | ok a =>
      cases ms with
      | error em => exact Or.inl rfl
      | ok b =>
        cases rs with
        | error er => exact Or.inl rfl
        | ok c =>
          cases ls with
          | error el => exact Or.inl rfl
          | ok d =>
            cases ps with
            | error ep => exact Or.inl rfl
            | ok e =>
              exact Or.inr ⟨a, b, c, d, e, rfl, rfl, rfl, rfl, rfl, rfl⟩
  · intro l hl
    cases us <;> cases ms <;> cases rs <;> cases ls <;> cases ps <;>
      simp [get_database_stats, bind, Except.bind, pure, Except.pure,
        statsKeys] at hl ⊢
    all_goals simp [hl.symm]
  · intro a b c d e
    rfl

theorem get_database_stats_all_or_nothing_witness :
    (∀ l, get_database_stats (Except.ok 2) (Except.ok 3)
        (Except.error "no connection") (Except.ok 4) (Except.ok 5) = some l →
      l.map Prod.fst = statsKeys) ∧
    get_database_stats (Except.ok 2) (Except.ok 3) (Except.ok 4)
        (Except.ok 5) (Except.ok 6) =
      some [("users", 2), ("medications", 3), ("reminders", 4),
            ("medication_logs", 5), ("prescription_uploads", 6)] :=
  ⟨(get_database_stats_all_or_nothing (Except.ok 2) (Except.ok 3)
      (Except.error "no connection") (Except.ok 4) (Except.ok 5)).2.1,
   (get_database_stats_all_or_nothing (Except.ok 0) (Except.ok 0)
      (Except.ok 0) (Except.ok 0) (Except.ok 0)).2.2 2 3 4 5 6⟩


theorem seedToUser_is_active (now : Nat) (s : SeedUser) :
    (seedToUser now s).is_active = true :=
  rfl

theorem seedToUser_password_hash (now : Nat) (s : SeedUser) :
    (seedToUser now s).password_hash = generate_password_hash s.password :=
  rfl

theorem seedToUser_username (now : Nat) (s : SeedUser) :
    (seedToUser now s).username = s.username :=
  rfl

theorem hasUsername_append (db : List User) (u : User) (name : String) :
    hasUsername (db ++ [u]) name =
      (hasUsername db name || (u.username == name)) := by
  simp [hasUsername]

theorem seedToUser_email (now : Nat) (s : SeedUser) :
    (seedToUser now s).email = s.email :=
  rfl

theorem hasEmail_append (db : List User) (u : User) (em : String) :
    hasEmail (db ++ [u]) em = (hasEmail db em || (u.email == em)) := by
  simp [hasEmail]

/-- Closed form of `create_default_users`: the loop over the two seed
entries, with the in-loop username checks and the unique-index outcome of
each save resolved. -/
theorem create_default_users_eq (now : Nat) (db : List User) :
    create_default_users now db =
      if hasUsername db "testuser" then
        (if hasUsername db "karthikrai390@gmail.com" then (db, 0, true)
         else if hasEmail db "karthikrai390@gmail.com" then (db, 0, false)
         else (db ++ [seedToUser now karthikSeed], 1, true))
      else if hasEmail db "testuser@example.com" then (db, 0, false)
      else if hasUsername db "karthikrai390@gmail.com" then
        (db ++ [seedToUser now testuserSeed], 1, true)
      else if hasEmail db "karthikrai390@gmail.com" then
        (db ++ [seedToUser now testuserSeed], 1, false)
      else
        (db ++ [seedToUser now testuserSeed, seedToUser now karthikSeed],
          2, true) := by
  by_cases h1 : hasUsername db "testuser" = true <;>
    by_cases e1 : hasEmail db "testuser@example.com" = true <;>
    by_cases h2 : hasUsername db "karthikrai390@gmail.com" = true <;>
    by_cases e2 : hasEmail db "karthikrai390@gmail.com" = true <;>
    simp [create_default_users, createLoop, User.saveNew, default_users,
      testuserSeed, karthikSeed, hasUsername_append, hasEmail_append,
      seedToUser_username, seedToUser_email, h1, h2, e1, e2]

theorem seeds_present_cases (db : List User) :
    seeds_present db =
      (if hasUsername db "testuser" then 1 else 0) +
      (if hasUsername db "karthikrai390@gmail.com" then 1 else 0) := by
  by_cases h1 : hasUsername db "testuser" = true <;>
    by_cases h2 : hasUsername db "karthikrai390@gmail.com" = true <;>
    simp [seeds_present, default_users, testuserSeed, karthikSeed, h1, h2]

/-- C5 counterexample: on a collection holding the first seed email under
a different username, the first run creates 0 users, not the 2 the claim
demands: no seed username is present, so the claim asserts 2 creations,
but the username existence check passes the entry to save, the insert hits
the unique email index, the exception aborts the loop and the function
returns False with the collection unchanged. -/
theorem create_default_users_email_clash :
    seeds_present [bob0] = 0 ∧
    default_users.length - seeds_present [bob0] = 2 ∧
    (create_default_users 100 [bob0]).2.1 = 0 ∧
    (create_default_users 100 [bob0]).1 = [bob0] ∧
    (create_default_users 100 [bob0]).2.2 = false :=
  ⟨rfl, rfl, rfl, rfl, rfl⟩

/-- C5 amended: provided no existing user holds a seed email while the
corresponding seed username is absent (so no save hits the unique email
index), `create_default_users` is idempotent: a first run creates exactly
(seed list size − number of seed usernames already present) new users,
each appended to the collection with `is_active = true` and a hashed
password, it returns True, and an immediately following second run
creates exactly 0 new users. -/
theorem create_default_users_idempotent (db : List User) (n1 n2 : Nat)
    (hc1 : hasUsername db "testuser" = true ∨
      hasEmail db "testuser@example.com" = false)
    (hc2 : hasUsername db "karthikrai390@gmail.com" = true ∨
      hasEmail db "karthikrai390@gmail.com" = false) :
    ((create_default_users n1 db).2.1 =
      default_users.length - seeds_present db) ∧
    ((create_default_users n1 db).2.2 = true) ∧
    ((create_default_users n2 (create_default_users n1 db).1).2.1 = 0) ∧
    (∃ new, (create_default_users n1 db).1 = db ++ new ∧
      new.length = (create_default_users n1 db).2.1 ∧
      ∀ u ∈ new, u.is_active = true ∧
        ∃ s ∈ default_users,
          u.password_hash = generate_password_hash s.password) := by
  have ht1 := create_default_users_eq n1 db
  by_cases h1 : hasUsername db "testuser" = true <;>
    by_cases h2 : hasUsername db "karthikrai390@gmail.com" = true
  · have hr : create_default_users n1 db = (db, 0, true) := by
      rw [ht1]; simp [h1, h2]
    rw [hr]
    refine ⟨by simp [seeds_present_cases, h1, h2, default_users], rfl, ?_,
      [], by simp, rfl, by simp⟩
    rw [create_default_users_eq]
    simp [h1, h2]
  · have h2f : hasUsername db "karthikrai390@gmail.com" = false := by
      simpa using h2
    have e2 : hasEmail db "karthikrai390@gmail.com" = false :=
      hc2.resolve_left h2
    have hr : create_default_users n1 db =
        (db ++ [seedToUser n1 karthikSeed], 1, true) := by
      rw [ht1]; simp [h1, h2f, e2]
    rw [hr]
    refine ⟨by simp [seeds_present_cases, h1, h2f, default_users], rfl, ?_,
      [seedToUser n1 karthikSeed], rfl, rfl, ?_⟩
    · rw [create_default_users_eq]
      simp [hasUsername_append, seedToUser_username, h1, h2f, karthikSeed]
    · intro u hu
      simp only [List.mem_singleton] at hu
      subst hu
      exact ⟨seedToUser_is_active n1 karthikSeed,
        karthikSeed, by simp [default_users],
        seedToUser_password_hash n1 karthikSeed⟩
  · have h1f : hasUsername db "testuser" = false := by simpa using h1
    have e1 : hasEmail db "testuser@example.com" = false :=
      hc1.resolve_left h1
    have hr : create_default_users n1 db =
        (db ++ [seedToUser n1 testuserSeed], 1, true) := by
      rw [ht1]; simp [h1f, e1, h2]
    rw [hr]
    refine ⟨by simp [seeds_present_cases, h1f, h2, default_users], rfl, ?_,
      [seedToUser n1 testuserSeed], rfl, rfl, ?_⟩
    · rw [create_default_users_eq]
      simp [hasUsername_append, seedToUser_username, h1f, h2, testuserSeed]
    · intro u hu
      simp only [List.mem_singleton] at hu
      subst hu
      exact ⟨seedToUser_is_active n1 testuserSeed,
        testuserSeed, by simp [default_users],
        seedToUser_password_hash n1 testuserSeed⟩
  · have h1f : hasUsername db "testuser" = false := by simpa using h1
    have h2f : hasUsername db "karthikrai390@gmail.com" = false := by
      simpa using h2
    have e1 : hasEmail db "testuser@example.com" = false :=
      hc1.resolve_left h1
    have e2 : hasEmail db "karthikrai390@gmail.com" = false :=
      hc2.resolve_left h2
    have hr : create_default_users n1 db =
        (db ++ [seedToUser n1 testuserSeed, seedToUser n1 karthikSeed],
          2, true) := by
      rw [ht1]; simp [h1f, h2f, e1, e2]
    rw [hr]
    refine ⟨by simp [seeds_present_cases, h1f, h2f, default_users], rfl, ?_,
      [seedToUser n1 testuserSeed, seedToUser n1 karthikSeed], rfl, rfl, ?_⟩
    · rw [create_default_users_eq]
      simp [hasUsername_append, seedToUser_username, h1f, h2f, testuserSeed,
        karthikSeed, hasUsername]
    · intro u hu
      simp only [List.mem_cons, List.mem_singleton, List.not_mem_nil,
        or_false] at hu
      rcases hu with hu | hu <;> subst hu
      · exact ⟨seedToUser_is_active n1 testuserSeed,
          testuserSeed, by simp [default_users],
          seedToUser_password_hash n1 testuserSeed⟩
      · exact ⟨seedToUser_is_active n1 karthikSeed,
          karthikSeed, by simp [default_users],
          seedToUser_password_hash n1 karthikSeed⟩

theorem create_default_users_idempotent_witness :
    ((create_default_users 3 ([] : List User)).2.1 =
      default_users.length - seeds_present []) ∧
    ((create_default_users 3 ([] : List User)).2.2 = true) ∧
    ((create_default_users 4
        (create_default_users 3 ([] : List User)).1).2.1 = 0) ∧
    (∃ new, (create_default_users 3 ([] : List User)).1 = [] ++ new ∧
      new.length = (create_default_users 3 ([] : List User)).2.1 ∧
      ∀ u ∈ new, u.is_active = true ∧
        ∃ s ∈ default_users,
          u.password_hash = generate_password_hash s.password) :=
  create_default_users_idempotent [] 3 4 (Or.inr rfl) (Or.inr rfl)


/-- C2 counterexample: not every stored field appears in the serialized
output.  The concrete Medication med0 stores user_username = "alice", yet
its to_dict has no "user_username" key; the concrete PrescriptionUpload
up0 stores a file_path, yet its to_dict has no "file_path" key. -/
theorem serialize_omits_stored_fields :
    med0.user_username = "alice" ∧
    "user_username" ∉ (Medication.to_dict med0).map Prod.fst ∧
    up0.file_path = "uploads/rx_1.png" ∧
    "file_path" ∉ (PrescriptionUpload.to_dict up0).map Prod.fst := by
  refine ⟨rfl, ?_, rfl, ?_⟩ <;> decide

/-- C2 amended: for every Medication and PrescriptionUpload record,
to_dict produces a flat key-value map with a fixed key set independent of
the record (so unset timestamps appear as null, never omitted), identifier
fields rendered as strings, timestamp fields rendered as ISO-8601 strings
when set and null when unset, and every other stored field passing through
unchanged under its own field name — except that Medication.to_dict omits
the stored user_username field and PrescriptionUpload.to_dict omits the
stored file_path field. -/
theorem serialize_flat_shape (m : Medication) (p : PrescriptionUpload) :
    ((Medication.to_dict m).map Prod.fst =
      ["id", "user_id", "name", "dosage", "frequency", "instructions",
       "duration", "start_date", "end_date", "is_active", "created_at",
       "updated_at", "source", "confidence_score"]) ∧
    ((PrescriptionUpload.to_dict p).map Prod.fst =
      ["id", "user_id", "filename", "original_filename", "file_size",
       "mime_type", "extracted_text", "ocr_confidence", "processing_time",
       "medications_found", "medications_added", "processing_status",
       "error_message", "uploaded_at", "processed_at"]) ∧
    (List.lookup "id" (Medication.to_dict m) =
      some (Value.str (toString m.id))) ∧
    (List.lookup "user_id" (Medication.to_dict m) =
      some (Value.str (toString m.user_id))) ∧
    (List.lookup "start_date" (Medication.to_dict m) =
      some (optIso m.start_date)) ∧
    (List.lookup "end_date" (Medication.to_dict m) =
      some (optIso m.end_date)) ∧
    (List.lookup "created_at" (Medication.to_dict m) =
      some (optIso m.created_at)) ∧
    (List.lookup "updated_at" (Medication.to_dict m) =
      some (optIso m.updated_at)) ∧
    (List.lookup "name" (Medication.to_dict m) = some (Value.str m.name)) ∧
    (List.lookup "dosage" (Medication.to_dict m) =
      some (Value.str m.dosage)) ∧
    (List.lookup "frequency" (Medication.to_dict m) =
      some (Value.str m.frequency)) ∧
    (List.lookup "instructions" (Medication.to_dict m) =
      some (optStr m.instructions)) ∧
    (List.lookup "duration" (Medication.to_dict m) =
      some (optStr m.duration)) ∧
    (List.lookup "is_active" (Medication.to_dict m) =
      some (Value.bool m.is_active)) ∧
    (List.lookup "source" (Medication.to_dict m) =
      some (Value.str m.source)) ∧
    (List.lookup "confidence_score" (Medication.to_dict m) =
      some (Value.float m.confidence_score)) ∧
    ("user_username" ∉ (Medication.to_dict m).map Prod.fst) ∧
    (List.lookup "id" (PrescriptionUpload.to_dict p) =
      some (Value.str (toString p.id))) ∧
    (List.lookup "user_id" (PrescriptionUpload.to_dict p) =
      some (Value.str (toString p.user_id))) ∧
    (List.lookup "uploaded_at" (PrescriptionUpload.to_dict p) =
      some (optIso p.uploaded_at)) ∧
    (List.lookup "processed_at" (PrescriptionUpload.to_dict p) =
      some (optIso p.processed_at)) ∧
    (List.lookup "filename" (PrescriptionUpload.to_dict p) =
      some (Value.str p.filename)) ∧
    (List.lookup "original_filename" (PrescriptionUpload.to_dict p) =
      some (Value.str p.original_filename)) ∧
    (List.lookup "file_size" (PrescriptionUpload.to_dict p) =
      some (optInt p.file_size)) ∧
    (List.lookup "mime_type" (PrescriptionUpload.to_dict p) =
      some (optStr p.mime_type)) ∧
    (List.lookup "extracted_text" (PrescriptionUpload.to_dict p) =
      some (optStr p.extracted_text)) ∧
    (List.lookup "ocr_confidence" (PrescriptionUpload.to_dict p) =
      some (optFloat p.ocr_confidence)) ∧
    (List.lookup "processing_time" (PrescriptionUpload.to_dict p) =
      some (optFloat p.processing_time)) ∧
    (List.lookup "medications_found" (PrescriptionUpload.to_dict p) =
      some (Value.int p.medications_found)) ∧
    (List.lookup "medications_added" (PrescriptionUpload.to_dict p) =
      some (Value.int p.medications_added)) ∧
    (List.lookup "processing_status" (PrescriptionUpload.to_dict p) =
      some (Value.str p.processing_status)) ∧
    (List.lookup "error_message" (PrescriptionUpload.to_dict p) =
      some (optStr p.error_message)) ∧
    ("file_path" ∉ (PrescriptionUpload.to_dict p).map Prod.fst) ∧
    (∀ t : Option Nat,
      optIso t = Value.null ∨ ∃ n, optIso t = Value.str (isoformat n)) := by
  have hmk : (Medication.to_dict m).map Prod.fst =
      ["id", "user_id", "name", "dosage", "frequency", "instructions",
       "duration", "start_date", "end_date", "is_active", "created_at",
       "updated_at", "source", "confidence_score"] := rfl
  have hpk : (PrescriptionUpload.to_dict p).map Prod.fst =
      ["id", "user_id", "filename", "original_filename", "file_size",
       "mime_type", "extracted_text", "ocr_confidence", "processing_time",
       "medications_found", "medications_added", "processing_status",
       "error_message", "uploaded_at", "processed_at"] := rfl
  refine ⟨rfl, rfl, rfl, rfl, rfl, rfl, rfl, rfl, rfl, rfl, rfl, rfl, rfl,
    rfl, rfl, rfl, ?_, rfl, rfl, rfl, rfl, rfl, rfl, rfl, rfl, rfl, rfl,
    rfl, rfl, rfl, rfl, rfl, ?_, ?_⟩
  · rw [hmk]; decide
  · rw [hpk]; decide
  · intro t
    cases t with
    | none => exact Or.inl rfl
    | some n => exact Or.inr ⟨n, rfl⟩

theorem notRawDt_optIso (t : Option Nat) : notRawDt (optIso t) := by
  cases t <;> intro s hs <;> simp [optIso] at hs

theorem notRawDt_optStr (o : Option String) : notRawDt (optStr o) := by
  cases o <;> intro s hs <;> simp [optStr] at hs

theorem notRawDt_optInt (o : Option Int) : notRawDt (optInt o) := by
  cases o <;> intro s hs <;> simp [optInt] at hs

theorem notRawDt_optFloat (o : Option Rat) : notRawDt (optFloat o) := by
  cases o <;> intro s hs <;> simp [optFloat] at hs

theorem notRawDt_optOidStr (o : Option Nat) : notRawDt (optOidStr o) := by
  cases o <;> intro s hs <;> simp [optOidStr] at hs

/-- C9: for every record of every entity type, to_dict is a pure function
of the stored record state (the same unmutated record always yields the
identical output), every timestamp field of the cited serializers renders
through the iso-or-null idiom (an ISO-8601 string when set, null when
unset), and no value anywhere in any serializer output is a raw internal
timestamp object. -/
theorem serialize_pure_no_raw_timestamp (u : User) (m : Medication)
    (r : Reminder) (l : MedicationLog) (p : PrescriptionUpload) :
    (User.to_dict u = User.to_dict u ∧
     Medication.to_dict m = Medication.to_dict m ∧
     Reminder.to_dict r = Reminder.to_dict r ∧
     MedicationLog.to_dict l = MedicationLog.to_dict l ∧
     PrescriptionUpload.to_dict p = PrescriptionUpload.to_dict p) ∧
    (List.lookup "date_of_birth" (User.to_dict u) =
      some (optIso u.date_of_birth) ∧
     List.lookup "created_at" (User.to_dict u) = some (optIso u.created_at) ∧
     List.lookup "last_login" (User.to_dict u) = some (optIso u.last_login) ∧
     List.lookup "taken_at" (MedicationLog.to_dict l) =
      some (optIso l.taken_at) ∧
     List.lookup "created_at" (MedicationLog.to_dict l) =
      some (optIso l.created_at) ∧
     List.lookup "last_sent" (Reminder.to_dict r) =
      some (optIso r.last_sent) ∧
     List.lookup "next_due" (Reminder.to_dict r) =
      some (optIso r.next_due)) ∧
    (∀ t : Option Nat, isIsoOrNull (optIso t)) ∧
    (∀ kv ∈ User.to_dict u, notRawDt kv.2) ∧
    (∀ kv ∈ Medication.to_dict m, notRawDt kv.2) ∧
    (∀ kv ∈ Reminder.to_dict r, notRawDt kv.2) ∧
    (∀ kv ∈ MedicationLog.to_dict l, notRawDt kv.2) ∧
    (∀ kv ∈ PrescriptionUpload.to_dict p, notRawDt kv.2) := by
  refine ⟨⟨rfl, rfl, rfl, rfl, rfl⟩,
    ⟨rfl, rfl, rfl, rfl, rfl, rfl, rfl⟩, ?_, ?_, ?_, ?_, ?_, ?_⟩
  · intro t
    cases t with
    | none => trivial
    | some n => exact ⟨n, rfl⟩
  all_goals
    intro kv hkv
  · simp only [User.to_dict, List.mem_cons, List.not_mem_nil,
      or_false] at hkv
    rcases hkv with h|h|h|h|h|h|h|h|h|h <;> subst h <;>
      first
        | exact notRawDt_optIso _
        | exact notRawDt_optStr _
        | (intro t ht; exact Value.noConfusion ht)
  · simp only [Medication.to_dict, List.mem_cons, List.not_mem_nil,
      or_false] at hkv
    rcases hkv with h|h|h|h|h|h|h|h|h|h|h|h|h|h <;> subst h <;>
      first
        | exact notRawDt_optIso _
        | exact notRawDt_optStr _
        | (intro t ht; exact Value.noConfusion ht)
  · simp only [Reminder.to_dict, List.mem_cons, List.not_mem_nil,
      or_false] at hkv
    rcases hkv with h|h|h|h|h|h|h|h|h|h <;> subst h <;>
      first
        | exact notRawDt_optIso _
        | (intro t ht; exact Value.noConfusion ht)
  · simp only [MedicationLog.to_dict, List.mem_cons, List.not_mem_nil,
      or_false] at hkv
    rcases hkv with h|h|h|h|h|h|h|h|h <;> subst h <;>
      first
        | exact notRawDt_optIso _
        | exact notRawDt_optStr _
        | exact notRawDt_optOidStr _
        | (intro t ht; exact Value.noConfusion ht)
  · simp only [PrescriptionUpload.to_dict, List.mem_cons, List.not_mem_nil,
      or_false] at hkv
    rcases hkv with h|h|h|h|h|h|h|h|h|h|h|h|h|h|h <;> subst h <;>
      first
        | exact notRawDt_optIso _
        | exact notRawDt_optStr _
        | exact notRawDt_optInt _
        | exact notRawDt_optFloat _
        | (intro t ht; exact Value.noConfusion ht)

/-- C10: User.to_dict exposes no password material: the password_hash
field is absent from the output, and two User records differing only in
password_hash serialize to identical outputs. -/
theorem user_to_dict_no_password (u : User) (h : String) :
    ("password_hash" ∉ (User.to_dict u).map Prod.fst) ∧
    (User.to_dict { u with password_hash := h } = User.to_dict u) := by
  have huk : (User.to_dict u).map Prod.fst =
      ["id", "username", "email", "first_name", "last_name", "phone",
       "date_of_birth", "is_active", "created_at", "last_login"] := rfl
  exact ⟨by rw [huk]; decide, rfl⟩

end Medimorph
